import Mathlib

/-!
Verification of the editbox poster-gallery application.

The development shallowly embeds the pieces of the code that the spec's
claims are about:

- the customization engine of the user dashboard (drag, resize, rotate,
  zoom handlers over the `editFormData` state, with JS numbers modelled
  as rationals);
- the filter/sort effect of the user dashboard (JS `Array.prototype.sort`
  is specified stable since ES2019, so it is modelled by a stable
  descending insertion sort);
- the gallery download counter flow (`handleDownload`), with backend
  outcomes passed in explicitly;
- the admin upload form validation (`handleSave`);
- the `POST /api/upload` route, with the storage/database backend
  modelled by explicit success/failure flags and an abstract
  public-URL assignment.
-/

namespace Editbox

/-! ## Customization engine state (UserDashboard `editFormData`) -/

/-- A 2-dimensional point or offset, in logical canvas coordinates. -/
structure Vec2 where
  x : ℚ
  y : ℚ
deriving DecidableEq, Repr

/-- A width/height pair, in logical canvas units. -/
structure Size2 where
  width : ℚ
  height : ℚ
deriving DecidableEq, Repr

/-- A file as seen by the form handlers: name and byte size. -/
structure FileData where
  name : String
  size : Nat
deriving DecidableEq, Repr

/-- The `editFormData` state of the user dashboard customization modal. -/
structure EditFormData where
  name : String
  image : Option FileData
  textColor : String
  imagePosition : Vec2
  textPosition : Vec2
  fontSize : ℚ
  fontFamily : String
  fontStyle : String
  fontWeight : String
  textRotation : ℚ
  imageRotation : ℚ
  imageSize : Size2
deriving DecidableEq, Repr

/-- The initial / reset `editFormData` value used by the dashboard. -/
def initialEditFormData : EditFormData where
  name := ""
  image := none
  textColor := "#FFFFFF"
  imagePosition := ⟨50, 180⟩
  textPosition := ⟨200, 240⟩
  fontSize := 24
  fontFamily := "Arial"
  fontStyle := "normal"
  fontWeight := "normal"
  textRotation := 0
  imageRotation := 0
  imageSize := ⟨100, 100⟩

/-- Clamp a value into the interval from lo to hi, computed exactly like
the source's Math.max(lo, Math.min(hi, v)) pattern (the spec's clamp). -/
def clampRange (lo hi v : ℚ) : ℚ := max lo (min hi v)

/-- The dashboard's handleTextDrag: one drag step of the text layer.
textW and textH stand for the rendered text box measured from the DOM
(textRef.current?.offsetWidth / offsetHeight, defaulting to 0). -/
def handleTextDrag (zoomLevel textW textH : ℚ) (dx dy : ℚ)
    (prev : EditFormData) : EditFormData :=
  let scaledWidth := textW * zoomLevel
  let scaledHeight := textH * zoomLevel
  let newX := max 0 (min (400 - scaledWidth) (prev.textPosition.x + dx / zoomLevel))
  let newY := max 0 (min (280 - scaledHeight) (prev.textPosition.y + dy / zoomLevel))
  { prev with textPosition := ⟨newX, newY⟩ }

/-- The dashboard's handleImageDrag: one drag step of the image layer. -/
def handleImageDrag (zoomLevel : ℚ) (dx dy : ℚ)
    (prev : EditFormData) : EditFormData :=
  let scaledWidth := prev.imageSize.width * zoomLevel
  let scaledHeight := prev.imageSize.height * zoomLevel
  let newX := max 0 (min (400 - scaledWidth) (prev.imagePosition.x + dx / zoomLevel))
  let newY := max 0 (min (280 - scaledHeight) (prev.imagePosition.y + dy / zoomLevel))
  { prev with imagePosition := ⟨newX, newY⟩ }

/-- The dashboard's handleFontSizeChange. -/
def handleFontSizeChange (delta : ℚ) (prev : EditFormData) : EditFormData :=
  { prev with fontSize := max 10 (prev.fontSize + delta) }

/-- The dashboard's handleImageSizeChange (the plus and minus size buttons). -/
def handleImageSizeChange (deltaWidth deltaHeight : ℚ)
    (prev : EditFormData) : EditFormData :=
  { prev with imageSize :=
      ⟨max 50 (prev.imageSize.width + deltaWidth),
       max 50 (prev.imageSize.height + deltaHeight)⟩ }

/-- The dashboard's handleZoom: the zoom level is clamped into the band
from 0.5 to 3. -/
def handleZoom (delta : ℚ) (prev : ℚ) : ℚ :=
  min (max (1/2) (prev + delta)) 3

/-- Truncation of a rational toward zero, as JS number-to-integer
truncation behaves. -/
def ratTrunc (q : ℚ) : ℤ := if 0 ≤ q then ⌊q⌋ else ⌈q⌉

/-- The JS remainder operator a % b: the truncated remainder, whose sign
follows the dividend a, not the divisor b. -/
def jsMod (a b : ℚ) : ℚ := a - b * (ratTrunc (a / b) : ℚ)

/-- Which overlay layer a rotation button targets. -/
inductive LayerKind where
  | text
  | image
deriving DecidableEq, Repr

/-- The dashboard's handleRotationChange: a rotation button press adds
the fixed step and applies the JS remainder by 360. -/
def handleRotationChange (kind : LayerKind) (delta : ℚ)
    (prev : EditFormData) : EditFormData :=
  match kind with
  | .text => { prev with textRotation := jsMod (prev.textRotation + delta) 360 }
  | .image => { prev with imageRotation := jsMod (prev.imageRotation + delta) 360 }

/-- The two resize handles rendered on the image layer. -/
inductive ResizeHandle where
  | bottomRight
  | topLeft
deriving DecidableEq, Repr

/-- The dashboard's handleResizeMove, the move handler installed by
handleResizeStart. startWidth and startHeight are the image size
captured at gesture start; clientDX and clientDY are the pointer travel
since gesture start (clientX - startX, clientY - startY). The source
first computes a per-handle tentative newHeight, then unconditionally
overwrites it with newWidth / aspectRatio, so only the width branch
matters for the final height. -/
def handleResizeMove (handle : ResizeHandle) (zoomLevel startWidth startHeight : ℚ)
    (clientDX clientDY : ℚ) (prev : EditFormData) : EditFormData :=
  let deltaX := clientDX / zoomLevel
  let deltaY := clientDY / zoomLevel
  let newWidth := match handle with
    | .bottomRight => max 50 (startWidth + deltaX)
    | .topLeft => max 50 (startWidth - deltaX)
  let _tentativeHeight := match handle with
    | .bottomRight => max 50 (startHeight + deltaY)
    | .topLeft => max 50 (startHeight - deltaY)
  let aspectRatio := startWidth / startHeight
  let newHeight := newWidth / aspectRatio
  let scaledWidth := newWidth * zoomLevel
  let scaledHeight := newHeight * zoomLevel
  let maxX := 400 - scaledWidth
  let maxY := 280 - scaledHeight
  let newX := max 0 (min maxX prev.imagePosition.x)
  let newY := max 0 (min maxY prev.imagePosition.y)
  { prev with imageSize := ⟨newWidth, newHeight⟩, imagePosition := ⟨newX, newY⟩ }

/-! ## Poster catalog and the filter/sort effect (UserDashboard) -/

/-- A poster record as the user dashboard sees it. created_at is
modelled as the millisecond timestamp the source obtains via
new Date(created_at).getTime(); download_count is optional because the
source guards every read of it with a fallback to 0. -/
structure Poster where
  id : ℤ
  title : String
  category : String
  download_url : String
  psd_url : Option String
  font_family : Option String
  is_editable : Bool
  created_at : ℤ
  download_count : Option ℤ
deriving DecidableEq, Repr

/-- Lower-casing of a string, character by character, modelling JS
toLowerCase on the ASCII range. -/
def strLower (s : String) : String := String.mk (s.toList.map Char.toLower)

/-- JS String.includes: substring containment, modelled on the
character lists. -/
def strIncludes (s sub : String) : Bool :=
  decide ((strLower sub).toList <:+: (strLower s).toList)

/-- The search predicate of the dashboard filter effect: the query
matches the title or the category, case-insensitively. (strIncludes
already lower-cases both sides, as the source does.) -/
def matchesQuery (q : String) (p : Poster) : Bool :=
  strIncludes p.title q || strIncludes p.category q

/-- The download-count sort key: an absent count reads as 0, as the
source's fallback-to-0 guard does. -/
def downloadKey (p : Poster) : ℤ := p.download_count.getD 0

/-- The created_at sort key used by the latest mode. -/
def createdKey (p : Poster) : ℤ := p.created_at

/-- One step of a stable descending insertion sort: the inserted
element a is placed before the first element whose key is at most key a.
JS Array.prototype.sort is specified stable (ES2019), and a stable sort
consistent with the comparator (b, a are swapped and keys subtracted,
so larger keys come first) is exactly this insertion sort's result. -/
def insertDesc {α : Type} (key : α → ℤ) (a : α) : List α → List α
  | [] => [a]
  | b :: bs => if key b ≤ key a then a :: b :: bs else b :: insertDesc key a bs

/-- Stable descending sort by a key, folding insertions from the right
so that earlier elements are inserted into the already-sorted suffix. -/
def stableSortDesc {α : Type} (key : α → ℤ) (l : List α) : List α :=
  l.foldr (insertDesc key) []

/-- The sort mode selector of the dashboard. -/
inductive SortMode where
  | latest
  | popular
deriving DecidableEq, Repr

/-- The filtering stage of the dashboard effect: the search filter runs
only when the query is non-empty (a JS truthiness test), then the
category filter runs unless the selection is All. -/
def applyFilters (posters : List Poster) (searchQuery selectedCategory : String) :
    List Poster :=
  let r1 := if searchQuery ≠ "" then posters.filter (matchesQuery searchQuery) else posters
  if selectedCategory ≠ "All" then r1.filter (fun p => p.category == selectedCategory) else r1

/-- The full filter/sort effect of the dashboard: filter, then sort by
descending download count (popular) or descending created_at (latest). -/
def filterSortEffect (posters : List Poster) (searchQuery selectedCategory : String)
    (mode : SortMode) : List Poster :=
  let result := applyFilters posters searchQuery selectedCategory
  match mode with
  | .popular => stableSortDesc downloadKey result
  | .latest => stableSortDesc createdKey result

/-! ## Gallery download counter flow (UserDashboard handleDownload) -/

/-- The observable outcome of one handleDownload call: whether an error
message was surfaced, the backend's stored count after the call, the two
local lists after the call, whether the asset fetch was attempted, and
whether the file save ran. -/
structure DownloadOutcome where
  errorSurfaced : Bool
  backendCount : Option ℤ
  posters : List Poster
  filteredPosters : List Poster
  assetFetchAttempted : Bool
  fileSaved : Bool
deriving DecidableEq, Repr

/-- Patch a local poster list with a new download count for one id, as
the two setPosters / setFilteredPosters updaters do. -/
def patchCount (id newCount : ℤ) (l : List Poster) : List Poster :=
  l.map fun p => if p.id == id then { p with download_count := some newCount } else p

/-- The dashboard's handleDownload, after the cooldown wait. stored is
the backend's current download_count for the poster; fetchFails,
updateFails and assetFails say which backend steps fail. On a count
fetch or write-back failure the handler surfaces an error and returns
before touching the local lists or fetching the asset. -/
def handleDownload (posters filteredPosters : List Poster) (id : ℤ)
    (stored : Option ℤ) (fetchFails updateFails assetFails : Bool) :
    DownloadOutcome :=
  if fetchFails then
    ⟨true, stored, posters, filteredPosters, false, false⟩
  else
    let newCount := stored.getD 0 + 1
    if updateFails then
      ⟨true, stored, posters, filteredPosters, false, false⟩
    else
      let posters' := patchCount id newCount posters
      let filtered' := patchCount id newCount filteredPosters
      if assetFails then
        ⟨true, some newCount, posters', filtered', true, false⟩
      else
        ⟨false, some newCount, posters', filtered', true, true⟩

/-! ## Admin catalog realtime merge (AdminPosters subscription handler) -/

/-- A poster record as the admin page sees it (its interface carries no
download_count). created_at stays a string here, as in the source. -/
structure AdminPoster where
  id : ℤ
  title : String
  category : String
  download_url : String
  psd_url : Option String
  font_family : Option String
  is_editable : Bool
  created_at : String
deriving DecidableEq, Repr

/-- A realtime change event, the payload shapes the handler reads:
INSERT and UPDATE carry the new record, DELETE carries the old id. -/
inductive RealtimeEvent where
  | insert (record : AdminPoster)
  | update (record : AdminPoster)
  | delete (oldId : ℤ)
deriving DecidableEq, Repr

/-- The admin page's realtime subscription handler, one event applied to
the cached list: INSERT prepends, DELETE filters the id out, UPDATE
replaces the record with the matching id in place. -/
def applyEvent (posters : List AdminPoster) : RealtimeEvent → List AdminPoster
  | .insert r => r :: posters
  | .delete oldId => posters.filter (fun p => p.id != oldId)
  | .update r => posters.map (fun p => if p.id == r.id then r else p)

/-- A list of events applied in arrival order. -/
def applyEvents (posters : List AdminPoster) (es : List RealtimeEvent) :
    List AdminPoster :=
  es.foldl applyEvent posters

/-- No two catalog entries share an id. -/
def uniqueIds (posters : List AdminPoster) : Prop :=
  (posters.map (fun p => p.id)).Nodup

instance (posters : List AdminPoster) : Decidable (uniqueIds posters) := by
  unfold uniqueIds
  infer_instance

/-- Every INSERT event in the sequence carries an id that is absent from
the catalog at the moment the handler applies it. -/
def insertsFresh : List AdminPoster → List RealtimeEvent → Bool
  | _, [] => true
  | l, .insert r :: es =>
      !(l.map (fun p => p.id)).contains r.id && insertsFresh (applyEvent l (.insert r)) es
  | l, e :: es => insertsFresh (applyEvent l e) es

/-! ## Admin upload form validation (AdminPosters handleSave) -/

/-- The admin upload form state that handleSave reads. -/
structure AdminForm where
  category : String
  title : String
  file : Option FileData
  thumbnail : Option FileData
  isEditable : Bool
  fontFamily : String
deriving DecidableEq, Repr

/-- Split a character list at every occurrence of a separator, the JS
String.split semantics: n separators give n plus one chunks, so empty
chunks survive at the edges. -/
def splitOnChar (sep : Char) : List Char → List (List Char)
  | [] => [[]]
  | c :: cs =>
    let rest := splitOnChar sep cs
    if c = sep then [] :: rest
    else
      match rest with
      | [] => [[c]]
      | r :: rs => (c :: r) :: rs

/-- The filename extension as both the admin form and the upload route
compute it: split on dots, take the last chunk, lower-case it. -/
def fileExtOf (name : String) : String :=
  String.mk ((((splitOnChar '.' name.toList).getLastD []).map Char.toLower))

/-- The 50 MiB limit shared by the admin form and the upload route. -/
def MAX_FILE_SIZE : Nat := 50 * 1024 * 1024

/-- The size test of the admin form and the upload route: the main file
is over the limit, or a supplied thumbnail is. -/
def fileSizeExceeded (fileSize : Nat) (thumbnail : Option FileData) : Bool :=
  decide (fileSize > MAX_FILE_SIZE) ||
    (match thumbnail with
     | some t => decide (t.size > MAX_FILE_SIZE)
     | none => false)

/-- What one handleSave call does before returning: either it stops at a
validation error (no backend call of any kind is made), or it submits
the multipart form to the upload API. -/
inductive SaveAction where
  | validationError (msg : String)
  | submitToApi (file : FileData) (thumbnail : Option FileData)
      (title category : String) (isEditable : Bool) (fontFamily : String)
deriving DecidableEq, Repr

/-- Whether a save action stopped at validation. -/
def SaveAction.isValidationError : SaveAction → Bool
  | .validationError _ => true
  | .submitToApi .. => false

/-- The validation stage of the admin page's handleSave, in source
order: title and file presence, then the editable-PSD thumbnail
requirement, then the size limit; only when all pass is the form sent to
the upload API. -/
def handleSave (form : AdminForm) : SaveAction :=
  if form.title = "" || form.file.isNone then
    .validationError "Title and file are required."
  else
    match form.file with
    | none => .validationError "Title and file are required."
    | some f =>
      if form.isEditable && (fileExtOf f.name == "psd") && form.thumbnail.isNone then
        .validationError "Thumbnail image (PNG/JPEG) is required for editable PSDs."
      else if fileSizeExceeded f.size form.thumbnail then
        .validationError "File size exceeds maximum limit of 50MB"
      else
        .submitToApi f form.thumbnail form.title form.category form.isEditable form.fontFamily

/-! ## POST /api/upload route -/

/-- Replace every maximal run of whitespace by a single dash, as the
route's regex replacement over the title does. The Bool flag records
whether the previous character was whitespace. -/
def collapseWS : List Char → Bool → List Char
  | [], _ => []
  | c :: cs, inRun =>
    if c.isWhitespace then
      if inRun then collapseWS cs true else '-' :: collapseWS cs true
    else
      c :: collapseWS cs false

/-- The route's title sanitization for storage object names. -/
def sanitizeTitle (t : String) : String := String.mk (collapseWS t.toList false)

/-- The multipart form fields of a POST /api/upload request. A missing
field and an empty string are both JS-falsy, so title and category are
plain strings here and absence is the empty string. -/
structure UploadRequest where
  file : Option FileData
  thumbnail : Option FileData
  title : String
  category : String
  isEditable : Bool
  fontFamily : String
deriving DecidableEq, Repr

/-- The row the route inserts into the posters table. -/
structure PosterRow where
  title : String
  category : String
  download_url : String
  psd_url : Option String
  font_family : String
  is_editable : Bool
  created_at : Nat
deriving DecidableEq, Repr

/-- The JSON response of the route: the 200 success body, or an error
body with its HTTP status. -/
inductive UploadResponse where
  | success (downloadLink title category : String) (isEditable : Bool) (fontFamily : String)
  | jsonError (status : Nat) (msg : String)
deriving DecidableEq, Repr

/-- The storage path the route uploads the main file to. -/
def uploadPathFor (now : Nat) (title fileName : String) : String :=
  let ext := fileExtOf fileName
  let objectName := toString now ++ "-" ++ sanitizeTitle title ++ "." ++ ext
  if ext == "psd" then "psd/" ++ objectName else "thumbnails/" ++ objectName

/-- The storage path the route uploads a supplied thumbnail to. -/
def thumbnailPathFor (now : Nat) (title : String) : String :=
  "thumbnails/" ++ (toString now ++ "-" ++ sanitizeTitle title ++ "-thumb.png")

/-- The POST handler of /api/upload. publicUrl abstracts the storage
getPublicUrl call; now stands for Date.now at the request; uploadFails,
thumbFails and insertFails say which backend calls fail (their error
messages from the backend are abstracted away). The result is the JSON
response paired with the row inserted into the posters table, or none
when no row was persisted. -/
def POSTupload (publicUrl : String → String) (now : Nat) (req : UploadRequest)
    (uploadFails thumbFails insertFails : Bool) :
    UploadResponse × Option PosterRow :=
  if req.file.isNone || req.title = "" || req.category = "" then
    (.jsonError 400 "Missing file, title, or category", none)
  else
    match req.file with
    | none => (.jsonError 400 "Missing file, title, or category", none)
    | some f =>
      if fileSizeExceeded f.size req.thumbnail then
        (.jsonError 400 "File size exceeds maximum limit of 50MB", none)
      else
        let isPsd := fileExtOf f.name == "psd"
        let uploadPath := uploadPathFor now req.title f.name
        if uploadFails then
          (.jsonError 400 "Upload failed: ", none)
        else
          let filePublicUrl := publicUrl uploadPath
          let afterThumbnail : Option String :=
            match req.thumbnail with
            | some _ =>
              if thumbFails then none
              else some (publicUrl (thumbnailPathFor now req.title))
            | none => some ""
          match afterThumbnail with
          | none => (.jsonError 400 "Thumbnail upload failed: ", none)
          | some thumbnailUrl =>
            let row : PosterRow :=
              { title := req.title
                category := req.category
                download_url := if isPsd then thumbnailUrl else filePublicUrl
                psd_url := if isPsd then some filePublicUrl else none
                font_family := req.fontFamily
                is_editable := req.isEditable
                created_at := now }
            if insertFails then
              (.jsonError 400 "Database insert failed: ", none)
            else
              (.success (if isPsd then thumbnailUrl else filePublicUrl)
                req.title req.category req.isEditable req.fontFamily, some row)

/-! ## Theorems -/

/-- C1: for every session state with zoom level between 0.5 and 3, one
drag step of either layer sets the layer's logical position per axis,
independently for x and y, to the clamp of position plus delta over zoom
into the band from 0 to 400 minus the scaled width (x) and 0 to 280
minus the scaled height (y), where the scaled size is the stored image
size times zoom for the image layer and the rendered text box times zoom
for the text layer; no other layer attribute changes. -/
theorem moveLayer_clamps_per_axis (st : EditFormData)
    (zoomLevel textW textH dx dy : ℚ)
    (hz : 1/2 ≤ zoomLevel ∧ zoomLevel ≤ 3) :
    ((handleTextDrag zoomLevel textW textH dx dy st).textPosition.x
        = clampRange 0 (400 - textW * zoomLevel) (st.textPosition.x + dx / zoomLevel) ∧
      (handleTextDrag zoomLevel textW textH dx dy st).textPosition.y
        = clampRange 0 (280 - textH * zoomLevel) (st.textPosition.y + dy / zoomLevel) ∧
      (handleTextDrag zoomLevel textW textH dx dy st).name = st.name ∧
      (handleTextDrag zoomLevel textW textH dx dy st).image = st.image ∧
      (handleTextDrag zoomLevel textW textH dx dy st).textColor = st.textColor ∧
      (handleTextDrag zoomLevel textW textH dx dy st).imagePosition = st.imagePosition ∧
      (handleTextDrag zoomLevel textW textH dx dy st).fontSize = st.fontSize ∧
      (handleTextDrag zoomLevel textW textH dx dy st).fontFamily = st.fontFamily ∧
      (handleTextDrag zoomLevel textW textH dx dy st).fontStyle = st.fontStyle ∧
      (handleTextDrag zoomLevel textW textH dx dy st).fontWeight = st.fontWeight ∧
      (handleTextDrag zoomLevel textW textH dx dy st).textRotation = st.textRotation ∧
      (handleTextDrag zoomLevel textW textH dx dy st).imageRotation = st.imageRotation ∧
      (handleTextDrag zoomLevel textW textH dx dy st).imageSize = st.imageSize) ∧
    ((handleImageDrag zoomLevel dx dy st).imagePosition.x
        = clampRange 0 (400 - st.imageSize.width * zoomLevel) (st.imagePosition.x + dx / zoomLevel) ∧
      (handleImageDrag zoomLevel dx dy st).imagePosition.y
        = clampRange 0 (280 - st.imageSize.height * zoomLevel) (st.imagePosition.y + dy / zoomLevel) ∧
      (handleImageDrag zoomLevel dx dy st).name = st.name ∧
      (handleImageDrag zoomLevel dx dy st).image = st.image ∧
      (handleImageDrag zoomLevel dx dy st).textColor = st.textColor ∧
      (handleImageDrag zoomLevel dx dy st).textPosition = st.textPosition ∧
      (handleImageDrag zoomLevel dx dy st).fontSize = st.fontSize ∧
      (handleImageDrag zoomLevel dx dy st).fontFamily = st.fontFamily ∧
      (handleImageDrag zoomLevel dx dy st).fontStyle = st.fontStyle ∧
      (handleImageDrag zoomLevel dx dy st).fontWeight = st.fontWeight ∧
      (handleImageDrag zoomLevel dx dy st).textRotation = st.textRotation ∧
      (handleImageDrag zoomLevel dx dy st).imageRotation = st.imageRotation ∧
      (handleImageDrag zoomLevel dx dy st).imageSize = st.imageSize) :=
  ⟨⟨rfl, rfl, rfl, rfl, rfl, rfl, rfl, rfl, rfl, rfl, rfl, rfl, rfl⟩,
   ⟨rfl, rfl, rfl, rfl, rfl, rfl, rfl, rfl, rfl, rfl, rfl, rfl, rfl⟩⟩

/-- Witness for C1: the theorem applied at zoom 1, a 40 by 20 rendered
text box and the pointer delta (10, -10) from the initial state. -/
theorem moveLayer_clamps_per_axis_witness :
    (1/2 ≤ (1 : ℚ) ∧ (1 : ℚ) ≤ 3) ∧
    (handleTextDrag 1 40 20 10 (-10) initialEditFormData).textPosition.x
      = clampRange 0 (400 - 40 * 1) (initialEditFormData.textPosition.x + 10 / 1) :=
  ⟨by norm_num,
   ((moveLayer_clamps_per_axis initialEditFormData 1 40 20 10 (-10) (by norm_num)).1).1⟩

/-- A concrete mid-session state used to exercise the resize handler: an
image layer of size 100 by 100 at position (100, 100). -/
def resizeStartState : EditFormData :=
  { initialEditFormData with
      image := some ⟨"user.png", 1000⟩
      imagePosition := ⟨100, 100⟩
      imageSize := ⟨100, 100⟩ }

/-- Counterexample to C2: at zoom 1, from a 100 by 100 image at
(100, 100), moving the pointer 10 to the left on the top-left handle
grows the width to 110 exactly as the claimed formula says, but the
position is left where it was, so the bottom-right corner (position plus
size, in logical units) moves from 200 to 210 instead of staying fixed. -/
theorem topLeft_resize_corner_moves :
    (handleResizeMove .topLeft 1 100 100 (-10) 0 resizeStartState).imageSize.width
      = max 50 (100 - (-10) / 1) ∧
    (handleResizeMove .topLeft 1 100 100 (-10) 0 resizeStartState).imagePosition.x
        + (handleResizeMove .topLeft 1 100 100 (-10) 0 resizeStartState).imageSize.width
      ≠ resizeStartState.imagePosition.x + resizeStartState.imageSize.width := by
  constructor <;>
    norm_num [handleResizeMove, resizeStartState, initialEditFormData, max_def, min_def]

/-- C2 amended: on the top-left handle the image does grow up-left in
size (width = max of 50 and start width minus delta over zoom, height
derived from the start ratio), but the position is not shifted to pin
the bottom-right corner: it is only re-clamped, per axis, into the
bounds left by the new scaled size, so the top-left corner stays fixed
whenever it already satisfies the new bounds and the bottom-right corner
moves with the size. No attribute other than image size and position
changes. -/
theorem topLeft_resize_reclamps_position (st : EditFormData)
    (zoomLevel startWidth startHeight clientDX clientDY : ℚ) :
    (handleResizeMove .topLeft zoomLevel startWidth startHeight clientDX clientDY st).imageSize.width
      = max 50 (startWidth - clientDX / zoomLevel) ∧
    (handleResizeMove .topLeft zoomLevel startWidth startHeight clientDX clientDY st).imageSize.height
      = max 50 (startWidth - clientDX / zoomLevel) / (startWidth / startHeight) ∧
    (handleResizeMove .topLeft zoomLevel startWidth startHeight clientDX clientDY st).imagePosition.x
      = clampRange 0 (400 - max 50 (startWidth - clientDX / zoomLevel) * zoomLevel)
          st.imagePosition.x ∧
    (handleResizeMove .topLeft zoomLevel startWidth startHeight clientDX clientDY st).imagePosition.y
      = clampRange 0
          (280 - max 50 (startWidth - clientDX / zoomLevel) / (startWidth / startHeight) * zoomLevel)
          st.imagePosition.y ∧
    (handleResizeMove .topLeft zoomLevel startWidth startHeight clientDX clientDY st).name = st.name ∧
    (handleResizeMove .topLeft zoomLevel startWidth startHeight clientDX clientDY st).image = st.image ∧
    (handleResizeMove .topLeft zoomLevel startWidth startHeight clientDX clientDY st).textColor = st.textColor ∧
    (handleResizeMove .topLeft zoomLevel startWidth startHeight clientDX clientDY st).textPosition = st.textPosition ∧
    (handleResizeMove .topLeft zoomLevel startWidth startHeight clientDX clientDY st).fontSize = st.fontSize ∧
    (handleResizeMove .topLeft zoomLevel startWidth startHeight clientDX clientDY st).fontFamily = st.fontFamily ∧
    (handleResizeMove .topLeft zoomLevel startWidth startHeight clientDX clientDY st).fontStyle = st.fontStyle ∧
    (handleResizeMove .topLeft zoomLevel startWidth startHeight clientDX clientDY st).fontWeight = st.fontWeight ∧
    (handleResizeMove .topLeft zoomLevel startWidth startHeight clientDX clientDY st).textRotation = st.textRotation ∧
    (handleResizeMove .topLeft zoomLevel startWidth startHeight clientDX clientDY st).imageRotation = st.imageRotation :=
  ⟨rfl, rfl, rfl, rfl, rfl, rfl, rfl, rfl, rfl, rfl, rfl, rfl, rfl, rfl⟩

/-- C3: for every resize gesture on either handle, the width-to-height
ratio of the image after the step equals the ratio captured at gesture
start. Over the rationals this holds exactly, so it holds in particular
within any floating tolerance. -/
theorem resize_preserves_aspect_ratio (handle : ResizeHandle) (st : EditFormData)
    (zoomLevel startWidth startHeight clientDX clientDY : ℚ)
    (hw : 0 < startWidth) (hh : 0 < startHeight) :
    (handleResizeMove handle zoomLevel startWidth startHeight clientDX clientDY st).imageSize.width
        / (handleResizeMove handle zoomLevel startWidth startHeight clientDX clientDY st).imageSize.height
      = startWidth / startHeight := by
  have key : ∀ w r : ℚ, w ≠ 0 → w / (w / r) = r ∨ r = 0 := by
    intro w r hw0
    rcases eq_or_ne r 0 with hr | hr
    · exact Or.inr hr
    · left
      rw [div_div_eq_mul_div, mul_comm, mul_div_assoc, div_self hw0, mul_one]
  have hratio : startWidth / startHeight ≠ 0 :=
    div_ne_zero (ne_of_gt hw) (ne_of_gt hh)
  cases handle <;>
  · simp only [handleResizeMove]
    rcases key (max 50 (startWidth + clientDX / zoomLevel)) (startWidth / startHeight)
        (by positivity) with h | h
    · first
      | exact h
      | rcases key (max 50 (startWidth - clientDX / zoomLevel)) (startWidth / startHeight)
            (by positivity) with h' | h'
        · exact h'
        · exact absurd h' hratio
    · exact absurd h hratio

/-- Witness for C3: the theorem applied on the bottom-right handle at
zoom 1 from the concrete 100 by 100 start. -/
theorem resize_preserves_aspect_ratio_witness :
    (0 < (100 : ℚ)) ∧
    (handleResizeMove .bottomRight 1 100 100 20 3 resizeStartState).imageSize.width
        / (handleResizeMove .bottomRight 1 100 100 20 3 resizeStartState).imageSize.height
      = 100 / 100 :=
  ⟨by norm_num,
   resize_preserves_aspect_ratio .bottomRight resizeStartState 1 100 100 20 3
     (by norm_num) (by norm_num)⟩

/-- Inserting into the stable descending sort permutes to a cons. -/
theorem insertDesc_perm {α : Type} (key : α → ℤ) (a : α) (l : List α) :
    List.Perm (insertDesc key a l) (a :: l) := by
  induction l with
  | nil => exact List.Perm.refl _
  | cons b bs ih =>
    by_cases h : key b ≤ key a
    · simp only [insertDesc, if_pos h]
      exact List.Perm.refl _
    · simp only [insertDesc, if_neg h]
      exact (ih.cons b).trans (List.Perm.swap a b bs)

/-- The stable descending sort is a permutation of its input. -/
theorem stableSortDesc_perm {α : Type} (key : α → ℤ) (l : List α) :
    List.Perm (stableSortDesc key l) l := by
  induction l with
  | nil => exact List.Perm.refl _
  | cons a l ih => exact (insertDesc_perm key a _).trans (ih.cons a)

/-- Insertion keeps the descending-by-key pairwise order. -/
theorem insertDesc_sorted {α : Type} (key : α → ℤ) (a : α) (l : List α)
    (hl : l.Pairwise (fun x y => key y ≤ key x)) :
    (insertDesc key a l).Pairwise (fun x y => key y ≤ key x) := by
  induction l with
  | nil => simp [insertDesc]
  | cons b bs ih =>
    rcases List.pairwise_cons.1 hl with ⟨hb, hbs⟩
    by_cases h : key b ≤ key a
    · simp only [insertDesc, if_pos h]
      refine List.pairwise_cons.2 ⟨?_, hl⟩
      intro x hx
      rcases List.mem_cons.1 hx with rfl | hx
      · exact h
      · exact le_trans (hb x hx) h
    · simp only [insertDesc, if_neg h]
      refine List.pairwise_cons.2 ⟨?_, ih hbs⟩
      intro x hx
      rcases List.mem_cons.1 ((insertDesc_perm key a bs).mem_iff.1 hx) with rfl | hx'
      · exact le_of_lt (lt_of_not_le h)
      · exact hb x hx'

/-- The stable descending sort output is pairwise descending by key. -/
theorem stableSortDesc_sorted {α : Type} (key : α → ℤ) (l : List α) :
    (stableSortDesc key l).Pairwise (fun x y => key y ≤ key x) := by
  induction l with
  | nil => simp [stableSortDesc]
  | cons a l ih => exact insertDesc_sorted key a _ ih

/-- Insertion is stable: any pairwise relation already holding on the
sorted list, restricted to equal keys, survives inserting an element
that relates to everything in the list. -/
theorem insertDesc_stable {α : Type} (key : α → ℤ) (S : α → α → Prop) (a : α)
    (l : List α)
    (hl : l.Pairwise (fun x y => key x = key y → S x y))
    (ha : ∀ b ∈ l, key a = key b → S a b) :
    (insertDesc key a l).Pairwise (fun x y => key x = key y → S x y) := by
  induction l with
  | nil => simp [insertDesc]
  | cons b bs ih =>
    rcases List.pairwise_cons.1 hl with ⟨hb, hbs⟩
    by_cases h : key b ≤ key a
    · simp only [insertDesc, if_pos h]
      exact List.pairwise_cons.2 ⟨fun x hx => ha x hx, hl⟩
    · simp only [insertDesc, if_neg h]
      refine List.pairwise_cons.2
        ⟨?_, ih hbs (fun x hx hkey => ha x (List.mem_cons_of_mem b hx) hkey)⟩
      intro x hx
      rcases List.mem_cons.1 ((insertDesc_perm key a bs).mem_iff.1 hx) with rfl | hx'
      · exact fun hkey => absurd (le_of_eq hkey) h
      · exact hb x hx'

/-- The stable descending sort is stable: any pairwise relation on the
input (such as coming-earlier-in-the-input) still holds in the output
between elements of equal key. -/
theorem stableSortDesc_stable {α : Type} (key : α → ℤ) (S : α → α → Prop)
    (l : List α) (hl : l.Pairwise S) :
    (stableSortDesc key l).Pairwise (fun x y => key x = key y → S x y) := by
  induction l with
  | nil => simp [stableSortDesc]
  | cons a l ih =>
    rcases List.pairwise_cons.1 hl with ⟨ha, hl'⟩
    exact insertDesc_stable key S a _ (ih hl')
      (fun b hb _ => ha b ((stableSortDesc_perm key l).mem_iff.1 hb))

/-- C4: for every catalog, search query and category filter, the
popular-mode output is a permutation of the filtered entries, its
download-count sequence (absent counts read as 0) is non-increasing,
and any pairwise relation holding on the filtered input, for instance
appearing earlier in it, still holds in the output between entries of
equal count: the sort is stable. -/
theorem popular_sort_is_stable_reordering (posters : List Poster)
    (searchQuery selectedCategory : String) (S : Poster → Poster → Prop)
    (hS : (applyFilters posters searchQuery selectedCategory).Pairwise S) :
    (filterSortEffect posters searchQuery selectedCategory .popular).Perm
        (applyFilters posters searchQuery selectedCategory) ∧
    ((filterSortEffect posters searchQuery selectedCategory .popular).map downloadKey).Pairwise
        (fun a b : ℤ => b ≤ a) ∧
    (filterSortEffect posters searchQuery selectedCategory .popular).Pairwise
        (fun a b => downloadKey a = downloadKey b → S a b) := by
  refine ⟨stableSortDesc_perm _ _, ?_, stableSortDesc_stable _ _ _ hS⟩
  exact List.pairwise_map.2 (stableSortDesc_sorted downloadKey _)

/-- Posters whose download counts are 5, 0, 5, 2 in catalog order, the
worked example of the claim. -/
def examplePosters : List Poster :=
  [⟨1, "A", "Festival", "u1", none, none, false, 40, some 5⟩,
   ⟨2, "B", "Birthday", "u2", none, none, false, 30, some 0⟩,
   ⟨3, "C", "Marriage", "u3", none, none, false, 20, some 5⟩,
   ⟨4, "D", "Festival", "u4", none, none, false, 10, some 2⟩]

/-- Witness for C4: the theorem applied to the counts 5, 0, 5, 2 with
the coming-earlier-by-id relation, plus the resulting count sequence
5, 5, 2, 0 computed concretely. -/
theorem popular_sort_is_stable_reordering_witness :
    (applyFilters examplePosters "" "All").Pairwise (fun a b => a.id < b.id) ∧
    ((filterSortEffect examplePosters "" "All" .popular).Perm
        (applyFilters examplePosters "" "All") ∧
      ((filterSortEffect examplePosters "" "All" .popular).map downloadKey).Pairwise
        (fun a b : ℤ => b ≤ a) ∧
      (filterSortEffect examplePosters "" "All" .popular).Pairwise
        (fun a b => downloadKey a = downloadKey b → a.id < b.id)) ∧
    (filterSortEffect examplePosters "" "All" .popular).map downloadKey = [5, 5, 2, 0] :=
  ⟨by decide,
   popular_sort_is_stable_reordering examplePosters "" "All" _ (by decide),
   by decide⟩

/-- Every entry of a patched list that carries the patched id carries
the new count. -/
theorem patchCount_mem (id newCount : ℤ) (l : List Poster) :
    ∀ p ∈ patchCount id newCount l, p.id = id → p.download_count = some newCount := by
  intro p hp hid
  rcases List.mem_map.1 hp with ⟨q, _, rfl⟩
  by_cases h : q.id = id
  · simp [h]
  · simp only [beq_iff_eq, if_neg h] at hid ⊢
    exact absurd hid h

/-- C5: a gallery download is gated on the counter. If the count fetch
or the count write-back fails, an error is surfaced, the asset fetch and
the file save are skipped, and both local lists (hence the catalog entry
for the poster) are left exactly as they were, with the backend count
untouched. If both succeed, the persisted count is the fetched count
plus exactly one and every local catalog entry for the poster carries
that same count. -/
theorem download_gated_on_counter (posters filteredPosters : List Poster)
    (id : ℤ) (stored : Option ℤ) (fetchFails updateFails assetFails : Bool) :
    (fetchFails = true ∨ updateFails = true →
      (handleDownload posters filteredPosters id stored fetchFails updateFails assetFails).errorSurfaced = true ∧
      (handleDownload posters filteredPosters id stored fetchFails updateFails assetFails).assetFetchAttempted = false ∧
      (handleDownload posters filteredPosters id stored fetchFails updateFails assetFails).fileSaved = false ∧
      (handleDownload posters filteredPosters id stored fetchFails updateFails assetFails).posters = posters ∧
      (handleDownload posters filteredPosters id stored fetchFails updateFails assetFails).filteredPosters = filteredPosters ∧
      (handleDownload posters filteredPosters id stored fetchFails updateFails assetFails).backendCount = stored) ∧
    (fetchFails = false → updateFails = false → ∀ c : ℤ, stored = some c →
      (handleDownload posters filteredPosters id stored fetchFails updateFails assetFails).backendCount = some (c + 1) ∧
      (∀ p ∈ (handleDownload posters filteredPosters id stored fetchFails updateFails assetFails).posters,
        p.id = id → p.download_count = some (c + 1)) ∧
      (∀ p ∈ (handleDownload posters filteredPosters id stored fetchFails updateFails assetFails).filteredPosters,
        p.id = id → p.download_count = some (c + 1))) := by
  constructor
  · rintro (rfl | rfl)
    · simp [handleDownload]
    · cases fetchFails <;> simp [handleDownload]
  · rintro rfl rfl c rfl
    cases assetFails <;>
      exact ⟨rfl, patchCount_mem id (c + 1) posters, patchCount_mem id (c + 1) filteredPosters⟩

/-- Witness for C5: the worked example of the claim, applied at a stored
count of 3: a failed write-back leaves the catalog at 3 and skips the
save, and a fully successful call persists 4 and patches the catalog
entry to 4. -/
theorem download_gated_on_counter_witness :
    ((false = true ∨ true = true) ∧
      (handleDownload examplePosters examplePosters 1 (some 3) false true false).posters
        = examplePosters ∧
      (handleDownload examplePosters examplePosters 1 (some 3) false true false).fileSaved
        = false) ∧
    ((false = (false : Bool)) ∧ some (3 : ℤ) = some 3 ∧
      (handleDownload examplePosters examplePosters 1 (some 3) false false false).backendCount
        = some 4 ∧
      (∀ p ∈ (handleDownload examplePosters examplePosters 1 (some 3) false false false).posters,
        p.id = 1 → p.download_count = some 4)) := by
  have hfail := (download_gated_on_counter examplePosters examplePosters 1 (some 3)
    false true false).1 (Or.inr rfl)
  have hok := (download_gated_on_counter examplePosters examplePosters 1 (some 3)
    false false false).2 rfl rfl 3 rfl
  exact ⟨⟨Or.inr rfl, hfail.2.2.2.1, hfail.2.2.1⟩,
    rfl, rfl, by exact_mod_cast hok.1, by exact_mod_cast hok.2.1⟩

/-- Witness form for C6: an editable submission whose asset is a PSD
with no thumbnail. -/
def psdNoThumbForm : AdminForm :=
  { category := "Festival", title := "Diwali", file := some ⟨"poster.PSD", 1000⟩,
    thumbnail := none, isEditable := true, fontFamily := "Roboto" }

/-- C6: every admin submission whose asset has extension psd, marked
editable, with no thumbnail supplied, stops at a validation error:
handleSave returns before building the multipart request, so no backend
call (storage upload, HTTP request or table insert) is ever made. -/
theorem editable_psd_requires_thumbnail (form : AdminForm) (f : FileData)
    (hfile : form.file = some f) (hext : fileExtOf f.name = "psd")
    (hedit : form.isEditable = true) (hthumb : form.thumbnail = none) :
    ∃ msg, handleSave form = .validationError msg := by
  by_cases ht : form.title = ""
  · exact ⟨"Title and file are required.", by simp [handleSave, ht]⟩
  · refine ⟨"Thumbnail image (PNG/JPEG) is required for editable PSDs.", ?_⟩
    simp [handleSave, ht, hfile, hext, hedit, hthumb]

/-- Witness for C6: the theorem applied to the concrete form above
(whose extension also checks the lower-casing of .PSD). -/
theorem editable_psd_requires_thumbnail_witness :
    (psdNoThumbForm.file = some ⟨"poster.PSD", 1000⟩ ∧
      fileExtOf "poster.PSD" = "psd" ∧
      psdNoThumbForm.isEditable = true ∧
      psdNoThumbForm.thumbnail = none) ∧
    ∃ msg, handleSave psdNoThumbForm = .validationError msg :=
  ⟨⟨rfl, by decide, rfl, rfl⟩,
   editable_psd_requires_thumbnail psdNoThumbForm ⟨"poster.PSD", 1000⟩
     rfl (by decide) rfl rfl⟩

/-- A request whose asset is exactly one byte over the 50 MiB limit. -/
def oversizeRequest : UploadRequest :=
  { file := some ⟨"big.png", 50 * 1024 * 1024 + 1⟩, thumbnail := none,
    title := "Big", category := "Festival", isEditable := false, fontFamily := "Roboto" }

/-- A request whose asset is exactly 50 MiB. -/
def boundaryRequest : UploadRequest :=
  { file := some ⟨"big.png", 50 * 1024 * 1024⟩, thumbnail := none,
    title := "Big", category := "Festival", isEditable := false, fontFamily := "Roboto" }

/-- The admin form holding the one-byte-oversize asset. -/
def oversizeForm : AdminForm :=
  { category := "Festival", title := "Big", file := some ⟨"big.png", 50 * 1024 * 1024 + 1⟩,
    thumbnail := none, isEditable := false, fontFamily := "Roboto" }

/-- The admin form holding the exactly-50-MiB asset. -/
def boundaryForm : AdminForm :=
  { category := "Festival", title := "Big", file := some ⟨"big.png", 50 * 1024 * 1024⟩,
    thumbnail := none, isEditable := false, fontFamily := "Roboto" }

/-- C7: the shared size validation accepts a file or thumbnail of
exactly 50 MiB and rejects 50 MiB plus one byte, both at the predicate
the route and the admin form test, and end to end: the route answers the
400 size error for the oversize request and succeeds for the boundary
one, and the admin form stops the oversize submission at validation and
lets the boundary one through to the API call. -/
theorem size_limit_boundary :
    fileSizeExceeded (50 * 1024 * 1024) none = false ∧
    fileSizeExceeded (50 * 1024 * 1024 + 1) none = true ∧
    fileSizeExceeded 100 (some ⟨"t.png", 50 * 1024 * 1024⟩) = false ∧
    fileSizeExceeded 100 (some ⟨"t.png", 50 * 1024 * 1024 + 1⟩) = true ∧
    (POSTupload (fun p => String.append "https://cdn.example/" p) 7 oversizeRequest
        false false false).1
      = .jsonError 400 "File size exceeds maximum limit of 50MB" ∧
    (POSTupload (fun p => String.append "https://cdn.example/" p) 7 oversizeRequest
        false false false).2 = none ∧
    (POSTupload (fun p => String.append "https://cdn.example/" p) 7 boundaryRequest
        false false false).1
      = .success "https://cdn.example/thumbnails/7-Big.png" "Big" "Festival" false "Roboto" ∧
    (handleSave oversizeForm).isValidationError = true ∧
    (handleSave boundaryForm).isValidationError = false := by
  decide

/-- Counterexample to C8: from the initial state, whose text rotation is
0, one press of the minus text-rotation button (step -15) stores -15,
which does not lie in the band from 0 inclusive to 360 exclusive. -/
theorem text_rotation_leaves_range :
    (handleRotationChange .text (-15) initialEditFormData).textRotation = -15 ∧
    ¬ (0 ≤ (handleRotationChange .text (-15) initialEditFormData).textRotation) := by
  have htr : (handleRotationChange .text (-15) initialEditFormData).textRotation
      = jsMod (0 + (-15)) 360 := rfl
  have htrunc : ratTrunc ((0 + (-15)) / 360 : ℚ) = 0 := by
    rw [ratTrunc, if_neg (by norm_num)]
    apply Int.ceil_eq_iff.mpr
    constructor <;> norm_num
  rw [htr, jsMod, htrunc]
  norm_num

/-- Bounds of the JS remainder by 360: it lies strictly between -360
and 360, and it is non-negative whenever the dividend is (the converse
fails: a dividend that is a negative multiple of 360 leaves remainder
0). -/
theorem jsMod_360_bounds (a : ℚ) :
    -360 < jsMod a 360 ∧ jsMod a 360 < 360 ∧ (0 ≤ a → 0 ≤ jsMod a 360) := by
  have e : (360 : ℚ) * (a / 360) = a := by
    rw [mul_comm]
    exact div_mul_cancel₀ a (by norm_num)
  rw [jsMod, ratTrunc]
  by_cases h : 0 ≤ a / 360
  · rw [if_pos h]
    have h1 : ((⌊a / 360⌋ : ℤ) : ℚ) ≤ a / 360 := Int.floor_le _
    have h2 : a / 360 < (⌊a / 360⌋ : ℚ) + 1 := Int.lt_floor_add_one _
    have h1' : (360 : ℚ) * (⌊a / 360⌋ : ℚ) ≤ 360 * (a / 360) := by
      have := mul_le_mul_of_nonneg_left h1 (by norm_num : (0:ℚ) ≤ 360)
      linarith
    have h2' : (360 : ℚ) * (a / 360) < 360 * ((⌊a / 360⌋ : ℚ) + 1) := by
      have := mul_lt_mul_of_pos_left h2 (by norm_num : (0:ℚ) < 360)
      linarith
    rw [e] at h1' h2'
    refine ⟨by linarith, by linarith, fun _ => by linarith⟩
  · rw [if_neg h]
    have h1 : a / 360 ≤ ((⌈a / 360⌉ : ℤ) : ℚ) := Int.le_ceil _
    have h2 : ((⌈a / 360⌉ : ℤ) : ℚ) < a / 360 + 1 := Int.ceil_lt_add_one _
    have h1' : (360 : ℚ) * (a / 360) ≤ 360 * (⌈a / 360⌉ : ℚ) := by
      have := mul_le_mul_of_nonneg_left h1 (by norm_num : (0:ℚ) ≤ 360)
      linarith
    have h2' : (360 : ℚ) * (⌈a / 360⌉ : ℚ) < 360 * (a / 360 + 1) := by
      have := mul_lt_mul_of_pos_left h2 (by norm_num : (0:ℚ) < 360)
      linarith
    rw [e] at h1'
    have h2'' : (360 : ℚ) * (⌈a / 360⌉ : ℚ) < a + 360 := by
      have : (360 : ℚ) * (a / 360 + 1) = a + 360 := by
        rw [mul_add, e]; norm_num
      linarith
    refine ⟨by linarith, by linarith, fun ha => ?_⟩
    exact absurd (div_nonneg ha (by norm_num : (0:ℚ) ≤ 360)) h

/-- C8 amended: a text-rotation button press with step delta stores the
JS remainder of the previous rotation plus delta by 360: a value
congruent to that sum modulo 360 that lies strictly between -360 and
360, and that lies in the claimed band from 0 inclusive to 360
exclusive whenever the sum is non-negative. When the sum is negative
the stored value need not lie in that band (the counterexample stores
-15), so the original claim's band only holds for non-negative sums. -/
theorem text_rotation_js_remainder (st : EditFormData) (delta : ℚ) :
    (handleRotationChange .text delta st).textRotation
        = jsMod (st.textRotation + delta) 360 ∧
    (∃ k : ℤ, (handleRotationChange .text delta st).textRotation
        = st.textRotation + delta - 360 * k) ∧
    -360 < (handleRotationChange .text delta st).textRotation ∧
    (handleRotationChange .text delta st).textRotation < 360 ∧
    (0 ≤ st.textRotation + delta →
      0 ≤ (handleRotationChange .text delta st).textRotation) := by
  obtain ⟨hlo, hhi, hnn⟩ := jsMod_360_bounds (st.textRotation + delta)
  have hr : (handleRotationChange .text delta st).textRotation
      = jsMod (st.textRotation + delta) 360 := rfl
  refine ⟨hr, ⟨ratTrunc ((st.textRotation + delta) / 360), ?_⟩,
    by rw [hr]; exact hlo, by rw [hr]; exact hhi, fun ha => by rw [hr]; exact hnn ha⟩
  rw [hr, jsMod]

/-- Witness for C8 amended: the theorem applied at the initial state and
the plus button step 15, with the non-negativity hypothesis discharged
there. -/
theorem text_rotation_js_remainder_witness :
    (0 ≤ initialEditFormData.textRotation + 15) ∧
    0 ≤ (handleRotationChange .text 15 initialEditFormData).textRotation :=
  ⟨by norm_num [initialEditFormData],
   (text_rotation_js_remainder initialEditFormData 15).2.2.2.2
     (by norm_num [initialEditFormData])⟩

/-- An admin catalog entry with id 1. -/
def adminPosterOne : AdminPoster :=
  ⟨1, "Diwali", "Festival", "u1", none, none, false, "2025-01-01"⟩

/-- A different record carrying the same id 1, as a realtime INSERT
event may deliver (for example the echo of a row the initial bulk fetch
already returned). -/
def adminPosterOneBis : AdminPoster :=
  ⟨1, "Diwali v2", "Festival", "u1b", none, none, false, "2025-01-02"⟩

/-- Counterexample to C9: from the singleton catalog holding id 1, which
has pairwise distinct ids, one INSERT handler step for a record that
also carries id 1 prepends it unconditionally, leaving two entries with
id 1. -/
theorem insert_event_duplicates_id :
    uniqueIds [adminPosterOne] ∧
    ¬ uniqueIds (applyEvents [adminPosterOne] [.insert adminPosterOneBis]) := by
  constructor <;> decide

/-- The UPDATE handler step never changes the id sequence of the
catalog: each entry either keeps its id or is replaced by the event's
record, whose id equals the replaced entry's. -/
theorem applyEvent_update_ids (l : List AdminPoster) (r : AdminPoster) :
    (applyEvent l (.update r)).map (fun p => p.id) = l.map (fun p => p.id) := by
  simp only [applyEvent, List.map_map]
  apply List.map_congr_left
  intro p _
  by_cases h : p.id = r.id
  · simp [Function.comp, h]
  · simp [Function.comp, h]

/-- C9 amended: id-uniqueness of the catalog is preserved by every
sequence of realtime handler steps in which each INSERT event carries an
id absent from the catalog at the moment it is applied; UPDATE and
DELETE steps preserve it unconditionally, and the counterexample above
shows the freshness proviso on INSERT cannot be dropped. -/
theorem applyEvents_preserve_uniqueIds (l : List AdminPoster)
    (es : List RealtimeEvent) (hl : uniqueIds l)
    (hfresh : insertsFresh l es = true) :
    uniqueIds (applyEvents l es) := by
  induction es generalizing l with
  | nil => exact hl
  | cons e es ih =>
    have step : uniqueIds (applyEvent l e) ∧ insertsFresh (applyEvent l e) es = true := by
      cases e with
      | insert r =>
        rw [insertsFresh, Bool.and_eq_true] at hfresh
        refine ⟨?_, hfresh.2⟩
        have hnotmem : r.id ∉ l.map (fun p => p.id) := by
          have := hfresh.1
          simpa using this
        exact List.nodup_cons.2 ⟨hnotmem, hl⟩
      | update r =>
        refine ⟨?_, hfresh⟩
        unfold uniqueIds
        rw [applyEvent_update_ids]
        exact hl
      | delete oldId =>
        refine ⟨?_, hfresh⟩
        unfold uniqueIds at hl ⊢
        exact List.Nodup.sublist (List.Sublist.map _ (List.filter_sublist l)) hl
    exact ih _ step.1 step.2

/-- Witness for C9 amended: the theorem applied to a concrete catalog
and a fresh-insert, update, delete event sequence. -/
theorem applyEvents_preserve_uniqueIds_witness :
    uniqueIds [adminPosterOne] ∧
    insertsFresh [adminPosterOne]
      [.insert ⟨2, "B", "Birthday", "u2", none, none, false, "2025-01-03"⟩,
       .update adminPosterOneBis, .delete 2] = true ∧
    uniqueIds (applyEvents [adminPosterOne]
      [.insert ⟨2, "B", "Birthday", "u2", none, none, false, "2025-01-03"⟩,
       .update adminPosterOneBis, .delete 2]) :=
  ⟨by decide, by decide,
   applyEvents_preserve_uniqueIds [adminPosterOne]
     [.insert ⟨2, "B", "Birthday", "u2", none, none, false, "2025-01-03"⟩,
      .update adminPosterOneBis, .delete 2] (by decide) (by decide)⟩

/-- C10: a POST /api/upload request with file, title and category
present and sizes within the limit, whose file extension is psd and with
no thumbnail part, is not rejected: with the backend calls succeeding
the route answers the 200 success body and inserts a row whose
download_url is the empty string and whose psd_url is the asset's public
URL. The editable-PSD thumbnail requirement is not enforced by the route
itself, so the persisted record has no displayable image in
download_url. -/
theorem psd_without_thumbnail_inserts_empty_url (publicUrl : String → String)
    (now : Nat) (req : UploadRequest) (f : FileData)
    (hfile : req.file = some f) (htitle : req.title ≠ "") (hcat : req.category ≠ "")
    (hsize : fileSizeExceeded f.size req.thumbnail = false)
    (hext : fileExtOf f.name = "psd") (hthumb : req.thumbnail = none) :
    POSTupload publicUrl now req false false false =
      (.success "" req.title req.category req.isEditable req.fontFamily,
       some { title := req.title, category := req.category, download_url := "",
              psd_url := some (publicUrl (uploadPathFor now req.title f.name)),
              font_family := req.fontFamily, is_editable := req.isEditable,
              created_at := now }) := by
  have hsize' : fileSizeExceeded f.size none = false := by
    rw [← hthumb]
    exact hsize
  simp [POSTupload, hfile, htitle, hcat, hsize, hsize', hext, hthumb]

/-- A PSD upload request with no thumbnail, valid title and category and
an in-limit size. -/
def psdRequest : UploadRequest :=
  { file := some ⟨"art.psd", 1000⟩, thumbnail := none, title := "Art",
    category := "Festival", isEditable := true, fontFamily := "Roboto" }

/-- Witness for C10: the theorem applied to the concrete PSD request
under the identity public-URL assignment; the inserted row carries an
empty download_url and the psd path as psd_url. -/
theorem psd_without_thumbnail_inserts_empty_url_witness :
    (psdRequest.file = some ⟨"art.psd", 1000⟩ ∧
      psdRequest.title ≠ "" ∧ psdRequest.category ≠ "" ∧
      fileSizeExceeded 1000 psdRequest.thumbnail = false ∧
      fileExtOf "art.psd" = "psd" ∧ psdRequest.thumbnail = none) ∧
    POSTupload (fun p => p) 7 psdRequest false false false =
      (.success "" "Art" "Festival" true "Roboto",
       some { title := "Art", category := "Festival", download_url := "",
              psd_url := some "psd/7-Art.psd", font_family := "Roboto",
              is_editable := true, created_at := 7 }) := by
  constructor
  · exact ⟨rfl, by decide, by decide, by decide, by decide, rfl⟩
  · have h := psd_without_thumbnail_inserts_empty_url (fun p => p) 7 psdRequest
      ⟨"art.psd", 1000⟩ rfl (by decide) (by decide) (by decide) (by decide) rfl
    rw [h]
    rfl

end Editbox
